import Mathlib

/-!
Shallow embedding of the Canvas FastAPI backend (auth flow, user service,
image save/read pipelines) together with proofs about the embedded
operations.

Conventions of the embedding:
* machine state (SQL tables, blob storage) is passed explicitly as Lean
  data; every operation returns its result together with the state it
  leaves behind, so "rollback" is visible as returning the original state;
* external libraries are given idealized executable models: the JWT
  library is modelled with a perfect MAC (a signature is valid exactly
  when it was produced over the same payload with the same secret and
  algorithm), the bcrypt hasher and verifier are abstract function
  parameters, base64 decoding follows the Python `base64.b64decode`
  semantics (non-alphabet characters are discarded, then strict quad
  decoding with padding; any leftover raises `binascii.Error`, modelled
  as `none`), and `uuid.UUID(s)` parsing strips dashes and requires
  exactly 32 hex digits;
* infrastructure failures (database commit errors, storage faults,
  missing configuration) are injected as explicit boolean parameters,
  since the Python code reaches those branches only through exceptions
  raised by external systems.
-/

/-! ## Basic data model: rows of the `users` and `images` tables, blobs -/

/-- A row of the `users` table (src/entities/user.py).  UUIDs are
modelled as natural numbers (their 128-bit value). -/
structure UserRec where
  id : Nat
  username : String
  email : String
  hashed_password : String
  is_active : Bool
deriving DecidableEq, Repr

/-- A row of the `images` table (src/entities/image.py). -/
structure ImageRec where
  id : Nat
  file_path : String
  prompt : Option String
  created_at : Nat
  user_id : Nat
deriving DecidableEq, Repr

/-- One object in GCS blob storage: its path inside the bucket and its
bytes (bytes as naturals < 256). -/
structure Blob where
  path : String
  data : List Nat
deriving DecidableEq, Repr

/-- The full persistent state visible to the endpoints: the relational
tables plus blob storage. -/
structure AppState where
  users : List UserRec
  images : List ImageRec
  blobs : List Blob
deriving DecidableEq, Repr

/-! ## UUID string formatting and parsing (Python `uuid` module model) -/

/-- Value of a hexadecimal digit character, `none` if not a hex digit
(Python `int(c, 16)` on single characters). -/
def hexVal (c : Char) : Option Nat :=
  if '0' ≤ c ∧ c ≤ '9' then some (c.toNat - '0'.toNat)
  else if 'a' ≤ c ∧ c ≤ 'f' then some (c.toNat - 'a'.toNat + 10)
  else if 'A' ≤ c ∧ c ≤ 'F' then some (c.toNat - 'A'.toNat + 10)
  else none

/-- Lower-case hex digit for a value < 16. -/
def hexDigit (n : Nat) : Char :=
  if n < 10 then Char.ofNat ('0'.toNat + n) else Char.ofNat ('a'.toNat + (n - 10))

/-- Big-endian fixed-width hex rendering of a natural number. -/
def toHexWidth : Nat → Nat → List Char
  | 0, _ => []
  | w + 1, v => toHexWidth w (v / 16) ++ [hexDigit (v % 16)]

/-- `str(u)` for a Python `uuid.UUID`: 32 lower-case hex digits in the
8-4-4-4-12 dashed layout. -/
def uuidToString (n : Nat) : String :=
  let h := toHexWidth 32 n
  String.mk (h.take 8 ++ '-' :: (h.drop 8).take 4 ++ '-' :: (h.drop 12).take 4
    ++ '-' :: (h.drop 16).take 4 ++ '-' :: h.drop 20)

/-- `uuid.UUID(s)`: dashes are removed and the remainder must be exactly
32 hex digits, otherwise Python raises `ValueError` (modelled as
`none`).  The `urn:uuid:` and brace forms accepted by Python are not
used anywhere in this codebase and are not modelled. -/
def pyUUID (s : String) : Option Nat :=
  let hexs := s.toList.filter (fun c => c ≠ '-')
  if hexs.length = 32 then
    hexs.foldl
      (fun acc c =>
        match acc, hexVal c with
        | some a, some v => some (a * 16 + v)
        | _, _ => none)
      (some 0)
  else none

/-! ## Base64 decoding (Python `base64.b64decode` model) -/

/-- The value of a base64 alphabet character, `none` for everything
else. -/
def b64val (c : Char) : Option Nat :=
  if 'A' ≤ c ∧ c ≤ 'Z' then some (c.toNat - 'A'.toNat)
  else if 'a' ≤ c ∧ c ≤ 'z' then some (c.toNat - 'a'.toNat + 26)
  else if '0' ≤ c ∧ c ≤ '9' then some (c.toNat - '0'.toNat + 52)
  else if c = '+' then some 62
  else if c = '/' then some 63
  else none

/-- Decode a list of base64 characters whose length is a multiple of 4,
quad by quad; `=` padding is allowed only at the very end. -/
def b64DecodeQuads : List Char → Option (List Nat)
  | [] => some []
  | a :: b :: c :: d :: rest => do
    let va ← b64val a
    let vb ← b64val b
    if c = '=' then
      if d = '=' ∧ rest = [] then some [va * 4 + vb / 16] else none
    else do
      let vc ← b64val c
      if d = '=' then
        if rest = [] then some [va * 4 + vb / 16, (vb % 16) * 16 + vc / 4] else none
      else do
        let vd ← b64val d
        let tail ← b64DecodeQuads rest
        some ((va * 4 + vb / 16) :: ((vb % 16) * 16 + vc / 4) :: ((vc % 4) * 64 + vd) :: tail)
  | _ => none

/-- Python `base64.b64decode(s)` with default `validate=False`:
characters outside the alphabet (and padding) are discarded first; the
remaining character count must be a multiple of 4 and padding must be
well-placed, otherwise `binascii.Error` is raised (modelled as
`none`). -/
def b64decode (s : String) : Option (List Nat) :=
  let cs := s.toList.filter (fun c => (b64val c).isSome || c == '=')
  if cs.length % 4 = 0 then b64DecodeQuads cs else none

/-! ## JWT model (PyJWT with an ideal MAC) -/

/-- The payload built by `create_access_token` (src/auth/service.py):
subject e-mail, string user id, expiry.  Arbitrary inbound tokens may
lack the `user_id` or `exp` claims, hence the options. -/
structure JwtPayload where
  sub : String
  user_id : Option String
  exp : Option Int
deriving DecidableEq, Repr

/-- An ideal MAC signature: it records exactly the secret, algorithm and
payload it was produced over, so signature verification succeeds exactly
on the token's own payload under the signing secret and algorithm. -/
structure JwtSig where
  secret : String
  alg : String
  payload : JwtPayload
deriving DecidableEq, Repr

/-- A serialized token: its payload together with its signature. -/
structure JwtToken where
  payload : JwtPayload
  sig : JwtSig
deriving DecidableEq, Repr

/-- Signing a payload (the MAC). -/
def jwtSign (secret alg : String) (p : JwtPayload) : JwtSig :=
  ⟨secret, alg, p⟩

/-- `jwt.encode(payload, secret, algorithm)`. -/
def jwtEncode (secret alg : String) (p : JwtPayload) : JwtToken :=
  ⟨p, jwtSign secret alg p⟩

/-- Expiry check of PyJWT: a present `exp` that is ≤ the current time
fails verification (`ExpiredSignatureError`); a missing `exp` is not
checked. -/
def jwtExpired (now : Int) : Option Int → Bool
  | some e => decide (e ≤ now)
  | none => false

/-- Errors of `jwt.decode` relevant here; both are subclasses of
`PyJWTError`. -/
inductive JwtError where
  | invalidSignature
  | expiredSignature
deriving DecidableEq, Repr

/-- `jwt.decode(token, secret, algorithms=[alg])`: check the signature
under the configured secret and algorithm, then the expiry. -/
def jwtDecode (secret alg : String) (now : Int) (t : JwtToken) :
    Except JwtError JwtPayload :=
  if t.sig ≠ jwtSign secret alg t.payload then .error .invalidSignature
  else if jwtExpired now t.payload.exp then .error .expiredSignature
  else .ok t.payload

/-! ## Auth service (src/auth/service.py) and token model
(src/auth/model.py) -/

/-- `TokenData` (src/auth/model.py): the decoded claims object; pydantic
defaults `user_id` to `None`. -/
structure TokenData where
  user_id : Option String
deriving DecidableEq, Repr

/-- The Python exception relevant to `TokenData.get_uuid`. -/
inductive PyErr where
  | valueError
deriving DecidableEq, Repr

/-- `TokenData.get_uuid` (src/auth/model.py): returns `None` when
`user_id` is falsy (absent or empty), otherwise parses it with
`uuid.UUID`, which raises `ValueError` on a malformed string. -/
def TokenData.get_uuid (t : TokenData) : Except PyErr (Option Nat) :=
  match t.user_id with
  | none => .ok none
  | some s =>
    if s = "" then .ok none
    else
      match pyUUID s with
      | some n => .ok (some n)
      | none => .error .valueError

/-- The 401 raised by `verify_token` and friends. -/
inductive AuthError where
  | unauthorized
deriving DecidableEq, Repr

/-- `create_access_token(email, user_id, expires_delta)`
(src/auth/service.py lines 47-53): payload is
`{sub: email, user_id: str(user_id), exp: now + expires_delta}`, signed
with the configured secret and algorithm. -/
def create_access_token (secret alg : String) (email : String) (user_id : Nat)
    (now expires_delta : Int) : JwtToken :=
  jwtEncode secret alg ⟨email, some (uuidToString user_id), some (now + expires_delta)⟩

/-- `verify_token(token)` (src/auth/service.py lines 56-72): decode under
the configured secret/algorithm; any `PyJWTError` and a missing
`user_id` claim both become the 401 `credentials_exception`; otherwise
the `TokenData` claims are returned. -/
def verify_token (secret alg : String) (now : Int) (t : JwtToken) :
    Except AuthError TokenData :=
  match jwtDecode secret alg now t with
  | .error _ => .error .unauthorized
  | .ok payload =>
    match payload.user_id with
    | none => .error .unauthorized
    | some s => .ok ⟨some s⟩

/-- `authenticate_user(db, username, password)` (src/auth/service.py
lines 36-44): look the user up by username, return `None` when absent;
verify the password against the stored hash, return `None` on mismatch;
otherwise return the user.  The bcrypt verifier is the abstract
parameter `verify`. -/
def authenticate_user (verify : String → String → Bool) (users : List UserRec)
    (username password : String) : Option UserRec :=
  match users.find? (fun u => u.username == username) with
  | none => none
  | some user => if verify password user.hashed_password then some user else none

/-- Errors raised by `register_user`. -/
inductive RegisterError where
  | conflict
  | internalError
deriving DecidableEq, Repr

/-- `register_user(db, request)` (src/auth/service.py lines 75-108):
build the new row with a fresh id and the bcrypt hash of the password,
then commit; an `IntegrityError` (the unique constraints on username and
email) rolls back and raises 409; any other commit failure (injected as
`commitFault`) rolls back and raises 500.  Rollback is visible as the
returned state being the caller's state. -/
def register_user (hashpw : String → String) (users : List UserRec)
    (req_username req_email req_password : String) (freshId : Nat)
    (commitFault : Bool) : Except RegisterError Unit × List UserRec :=
  let db_user : UserRec := ⟨freshId, req_username, req_email, hashpw req_password, true⟩
  if users.any (fun u => u.username == req_username || u.email == req_email) then
    (.error .conflict, users)
  else if commitFault then
    (.error .internalError, users)
  else
    (.ok (), users ++ [db_user])

/-! ## Users service (src/users/service.py, src/users/controller.py) -/

/-- `PasswordChange` (src/users/model.py). -/
structure PasswordChange where
  current_password : String
  new_password : String
  new_password_confirm : String
deriving DecidableEq, Repr

/-- Outcomes of `change_user_password` as seen by its controller:
`AuthenticationError` maps to 401, `BadRequestError` to 400, a database
error to 500, and a `ValueError` escaping `get_uuid` is an unhandled
exception that the controller's catch-all also turns into 500. -/
inductive PwChangeError where
  | authenticationError
  | badRequestError
  | dbError
  | unhandledValueError
deriving DecidableEq, Repr

/-- `get_user_by_id(db, user_id)` (src/users/service.py lines 11-13). -/
def get_user_by_id (users : List UserRec) (user_id : Nat) : Option UserRec :=
  users.find? (fun u => u.id == user_id)

/-- `change_user_password(current_user_token, db, password_change)`
(src/users/service.py lines 42-82): extract the uuid from the token
(`ValueError` propagates unhandled; a falsy id is an
`AuthenticationError`), re-read the user by id and fail with
`AuthenticationError` when absent, check the current password and the
new/confirm match (each a `BadRequestError`), then store the new hash
and commit; a commit failure rolls back and re-raises. -/
def change_user_password (verify : String → String → Bool)
    (hashpw : String → String) (users : List UserRec)
    (current_user_token : TokenData) (password_change : PasswordChange)
    (commitFault : Bool) : Except PwChangeError Unit × List UserRec :=
  match TokenData.get_uuid current_user_token with
  | .error _ => (.error .unhandledValueError, users)
  | .ok none => (.error .authenticationError, users)
  | .ok (some uid) =>
    match get_user_by_id users uid with
    | none => (.error .authenticationError, users)
    | some user =>
      if ¬ verify password_change.current_password user.hashed_password then
        (.error .badRequestError, users)
      else if password_change.new_password ≠ password_change.new_password_confirm then
        (.error .badRequestError, users)
      else if commitFault then
        (.error .dbError, users)
      else
        (.ok (),
          users.map (fun u =>
            if u.id == uid then
              { u with hashed_password := hashpw password_change.new_password }
            else u))

/-! ## Image save pipeline (src/image_art/service.py) -/

/-- HTTP-level failures of `save_user_image`: 400 for bad base64, 500
for configuration, storage and database failures. -/
inductive HttpError where
  | badRequest
  | internal
deriving DecidableEq, Repr

/-- Environment of one `save_user_image` call: configuration state, the
fresh identifiers drawn during the call, and injected infrastructure
faults (a storage-provider error during upload, a database error during
commit). -/
structure SaveEnv where
  gcsConfigured : Bool
  projectSet : Bool
  freshBlobId : String
  imageId : Nat
  now : Nat
  uploadFault : Bool
  commitFault : Bool
deriving DecidableEq, Repr

/-- The blob path synthesized by `save_user_image`:
`user_images/{user_id}/{uuid4()}.png`. -/
def blobName (user_id : Nat) (freshBlobId : String) : String :=
  "user_images/" ++ uuidToString user_id ++ "/" ++ freshBlobId ++ ".png"

/-- Conditions under which the metadata commit of
`_commit_and_refresh_db` raises: an injected database fault, the unique
constraint on `images.file_path`, or the foreign-key constraint on
`images.user_id` (the owning user must exist). -/
def dbImageCommitFails (st : AppState) (user_id : Nat) (path : String)
    (fault : Bool) : Bool :=
  fault || st.images.any (fun r => r.file_path == path)
    || (get_user_by_id st.users user_id).isNone

/-- `save_user_image(db, user_id, image_base64, prompt)`
(src/image_art/service.py lines 137-239): check GCS configuration (500),
base64-decode (400, no side effects), upload the bytes to the derived
blob path (500 on a storage fault, no blob stored, rollback is a no-op),
then commit the metadata row; on a commit failure the relational
transaction is rolled back and 500 is raised, while the uploaded blob
stays in storage. -/
def save_user_image (st : AppState) (env : SaveEnv) (user_id : Nat)
    (image_base64 : String) (prompt : Option String) :
    Except HttpError ImageRec × AppState :=
  if !env.gcsConfigured then (.error .internal, st)
  else if !env.projectSet then (.error .internal, st)
  else
    match b64decode image_base64 with
    | none => (.error .badRequest, st)
    | some image_bytes =>
      if env.uploadFault then (.error .internal, st)
      else if dbImageCommitFails st user_id (blobName user_id env.freshBlobId)
          env.commitFault then
        (.error .internal,
          { st with blobs :=
              st.blobs ++ [⟨blobName user_id env.freshBlobId, image_bytes⟩] })
      else
        (.ok ⟨env.imageId, blobName user_id env.freshBlobId, prompt, env.now, user_id⟩,
          { st with
              images := st.images
                ++ [⟨env.imageId, blobName user_id env.freshBlobId, prompt, env.now, user_id⟩],
              blobs := st.blobs ++ [⟨blobName user_id env.freshBlobId, image_bytes⟩] })

/-- Outcomes of the `POST /image/save` controller. -/
inductive CtrlError where
  | unauthorized
  | badRequest
  | internal
  | unhandledValueError
deriving DecidableEq, Repr

/-- `save_generated_image(request, save_request, current_user, db)`
(src/image_art/controller.py lines 40-78): a falsy `user_id` claim is
401; `get_uuid` is called outside any try block, so its `ValueError`
escapes as an unhandled exception (a 500, not a 401); a `None` uuid is
401; then `save_user_image` runs and its `HTTPException`s are re-raised
unchanged.  Note: the user is never re-read from the users table on this
path. -/
def save_generated_image (st : AppState) (env : SaveEnv)
    (current_user : TokenData) (image_base64 : String)
    (prompt : Option String) : Except CtrlError ImageRec × AppState :=
  if current_user.user_id = none ∨ current_user.user_id = some "" then
    (.error .unauthorized, st)
  else
    match TokenData.get_uuid current_user with
    | .error _ => (.error .unhandledValueError, st)
    | .ok none => (.error .unauthorized, st)
    | .ok (some uid) =>
      match save_user_image st env uid image_base64 prompt with
      | (.ok img, st') => (.ok img, st')
      | (.error .badRequest, st') => (.error .badRequest, st')
      | (.error .internal, st') => (.error .internal, st')

/-! ## Image read pipeline (src/image_art/service.py lines 242-378) -/

/-- Result of one underlying `blob.generate_signed_url` SDK call. -/
inductive GcsUrlResult where
  | ok (url : String)
  | notFound
  | err
deriving DecidableEq, Repr

/-- `_generate_signed_url_sync(blob_name)` (src/image_art/service.py
lines 279-300): a `NotFound` from GCS is caught and becomes the empty
string; any other exception is re-raised (later captured per-task by
`asyncio.gather(..., return_exceptions=True)`). -/
def generate_signed_url_sync (gcs : String → GcsUrlResult) (blob_name : String) :
    Except Unit String :=
  match gcs blob_name with
  | .ok url => .ok url
  | .notFound => .ok ""
  | .err => .error ()

/-- One element of the `GET /image/me` response. -/
structure UserImageEntry where
  id : Nat
  file_path : String
  prompt : Option String
  created_at : Nat
  image_url : String
deriving DecidableEq, Repr

/-- Insertion into a list kept in descending `created_at` order. -/
def insertByCreatedDesc (x : ImageRec) : List ImageRec → List ImageRec
  | [] => [x]
  | y :: ys =>
    if x.created_at ≤ y.created_at then y :: insertByCreatedDesc x ys
    else x :: y :: ys

/-- The `order_by(Image.created_at.desc())` of `_fetch_images_db`,
as an insertion sort. -/
def sortByCreatedDesc : List ImageRec → List ImageRec
  | [] => []
  | x :: xs => insertByCreatedDesc x (sortByCreatedDesc xs)

/-- The per-image combination step of `get_user_images_with_urls`: rows
of the user, newest first, those with a path; each row is kept exactly
when its signed-URL generation neither raised (the exception is captured
by `gather` and that entry is skipped) nor returned the empty
blob-not-found marker. -/
def userImagesWithUrls (images : List ImageRec) (user_id : Nat)
    (gcs : String → GcsUrlResult) : List UserImageEntry :=
  let user_images := sortByCreatedDesc (images.filter (fun r => r.user_id == user_id))
  let images_with_paths := user_images.filter (fun r => r.file_path != "")
  images_with_paths.filterMap (fun img =>
    match generate_signed_url_sync gcs img.file_path with
    | .error _ => none
    | .ok url =>
      if url = "" then none
      else some ⟨img.id, img.file_path, img.prompt, img.created_at, url⟩)

/-- `get_user_images_with_urls(db, user_id)` (src/image_art/service.py
lines 242-378): the GCS configuration checks fail with 500, a database
failure while fetching the rows (injected as `dbFault`) fails with 500,
and otherwise the listing is assembled with per-entry degradation. -/
def get_user_images_with_urls (gcsConfigured projectSet dbFault : Bool)
    (images : List ImageRec) (user_id : Nat) (gcs : String → GcsUrlResult) :
    Except HttpError (List UserImageEntry) :=
  if !gcsConfigured then .error .internal
  else if !projectSet then .error .internal
  else if dbFault then .error .internal
  else .ok (userImagesWithUrls images user_id gcs)

/-! ## Helper instances and lemmas -/

deriving instance DecidableEq for Except

/-- A list none of whose elements satisfies `p` filters to the empty
list. -/
lemma filter_nil_of_any_false {α : Type} (p : α → Bool) (l : List α)
    (h : l.any p = false) : l.filter p = [] := by
  rw [List.filter_eq_nil_iff]
  intro a ha
  rw [List.any_eq_false] at h
  exact h a ha

/-! ## C4: issue/verify round-trip of the user id -/

/-- C4: for every user with email `e` and id `u`, issuing a token via
`create_access_token(e, u, ttl)` with a positive ttl and then decoding
it via `verify_token` (same secret/algorithm, before expiry) returns
claims whose `user_id` equals `str(u)` exactly. -/
theorem C4_token_roundtrip_user_id (secret alg email : String) (u : Nat)
    (now ttl : Int) (h : 0 < ttl) :
    verify_token secret alg now (create_access_token secret alg email u now ttl) =
      .ok ⟨some (uuidToString u)⟩ := by
  unfold verify_token create_access_token jwtEncode jwtDecode jwtSign jwtExpired
  simp only [ne_eq, not_true_eq_false, if_false, decide_eq_true_eq]
  have hexp : ¬ (now + ttl ≤ now) := by omega
  simp [hexp]

/-- Witness for C4 at a concrete user id and ttl. -/
theorem C4_token_roundtrip_user_id_witness :
    verify_token "s3cret" "HS256" 0
        (create_access_token "s3cret" "HS256" "a@b.com" 5 0 1800) =
      .ok ⟨some (uuidToString 5)⟩ :=
  C4_token_roundtrip_user_id "s3cret" "HS256" "a@b.com" 5 0 1800 (by norm_num)

/-! ## C5: exact failure condition of verify_token -/

/-- C5: `verify_token` fails with Unauthorized exactly when the token's
signature is invalid under the configured secret/algorithm, or the
token's expiry has passed, or the decoded payload contains no `user_id`;
for every other well-signed unexpired token it returns the claims. -/
theorem C5_verify_token_characterization (secret alg : String) (now : Int)
    (t : JwtToken) :
    verify_token secret alg now t =
      if t.sig ≠ jwtSign secret alg t.payload ∨ jwtExpired now t.payload.exp = true
          ∨ t.payload.user_id = none
      then .error .unauthorized
      else .ok ⟨t.payload.user_id⟩ := by
  unfold verify_token jwtDecode
  by_cases h1 : t.sig = jwtSign secret alg t.payload
  · by_cases h2 : jwtExpired now t.payload.exp = true
    · simp [h1, h2]
    · cases h3 : t.payload.user_id with
      | none => simp [h1, h2, h3]
      | some s => simp [h1, h2, h3]
  · simp [h1]

/-! ## C6: authenticate_user collapses both failure causes to None -/

/-- C6: `authenticate_user` returns `None` both when no user with the
given username exists and when the user exists but the password does not
verify against the stored hash; it never raises (the embedding is a
total function into `Option`), and the two failure causes produce the
same caller-visible value. -/
theorem C6_authenticate_user_indistinguishable
    (verify : String → String → Bool) (users : List UserRec)
    (username password : String) :
    (users.find? (fun u => u.username == username) = none →
      authenticate_user verify users username password = none) ∧
    (∀ u, users.find? (fun u => u.username == username) = some u →
      verify password u.hashed_password = false →
      authenticate_user verify users username password = none) ∧
    (∀ users2 username2 password2 u,
      users.find? (fun v => v.username == username) = none →
      users2.find? (fun v => v.username == username2) = some u →
      verify password2 u.hashed_password = false →
      authenticate_user verify users username password =
        authenticate_user verify users2 username2 password2) := by
  refine ⟨?_, ?_, ?_⟩
  · intro h
    unfold authenticate_user
    rw [h]
  · intro u hfind hverify
    simp [authenticate_user, hfind, hverify]
  · intro users2 username2 password2 u hnone hfind hverify
    simp [authenticate_user, hnone, hfind, hverify]

/-- Witness for C6: a missing user and a wrong password produce the same
result. -/
theorem C6_authenticate_user_indistinguishable_witness :
    authenticate_user (fun p h => h == "hash" ++ p) [] "nouser" "whatever" =
      authenticate_user (fun p h => h == "hash" ++ p)
        [⟨1, "realuser", "r@e.al", "hash" ++ "right", true⟩] "realuser" "wrongpass" :=
  (C6_authenticate_user_indistinguishable (fun p h => h == "hash" ++ p) []
      "nouser" "whatever").2.2
    [⟨1, "realuser", "r@e.al", "hash" ++ "right", true⟩] "realuser" "wrongpass"
    ⟨1, "realuser", "r@e.al", "hash" ++ "right", true⟩ rfl rfl (by decide)

/-! ## C7: malformed base64 fails with 400 and has no side effects -/

/-- C7: with storage configured, every payload that fails base64
decoding makes `save_user_image` fail with `BadRequest` and leaves the
state (rows and blobs) exactly unchanged. -/
theorem C7_invalid_base64_no_side_effects (st : AppState) (env : SaveEnv)
    (uid : Nat) (s : String) (prompt : Option String)
    (hconf : env.gcsConfigured = true) (hproj : env.projectSet = true)
    (hbad : b64decode s = none) :
    save_user_image st env uid s prompt = (.error .badRequest, st) := by
  simp [save_user_image, hconf, hproj, hbad]

/-- Witness for C7 at the spec's example payload `"not-base64!!"`. -/
theorem C7_invalid_base64_no_side_effects_witness :
    save_user_image ⟨[⟨7, "alice", "a@b", "H", true⟩], [], []⟩
        ⟨true, true, "b1", 1, 100, false, false⟩ 7 "not-base64!!" none =
      (.error .badRequest, ⟨[⟨7, "alice", "a@b", "H", true⟩], [], []⟩) :=
  C7_invalid_base64_no_side_effects ⟨[⟨7, "alice", "a@b", "H", true⟩], [], []⟩
    ⟨true, true, "b1", 1, 100, false, false⟩ 7 "not-base64!!" none rfl rfl
    (by decide)

/-! ## C8: commit failure after upload rolls back the row, keeps the blob -/

/-- C8: when the upload has succeeded and the metadata commit fails, the
relational transaction is rolled back (the images table is unchanged)
while the already-uploaded blob stays in storage. -/
theorem C8_commit_failure_keeps_blob (st : AppState) (env : SaveEnv)
    (uid : Nat) (s : String) (bytes : List Nat) (prompt : Option String)
    (hconf : env.gcsConfigured = true) (hproj : env.projectSet = true)
    (hup : env.uploadFault = false)
    (hdec : b64decode s = some bytes)
    (hfail : dbImageCommitFails st uid (blobName uid env.freshBlobId)
      env.commitFault = true) :
    save_user_image st env uid s prompt =
      (.error .internal,
        { st with blobs := st.blobs ++ [⟨blobName uid env.freshBlobId, bytes⟩] }) := by
  simp [save_user_image, hconf, hproj, hdec, hup, hfail]

/-- Witness for C8: an injected commit fault after a successful upload. -/
theorem C8_commit_failure_keeps_blob_witness :
    save_user_image ⟨[⟨7, "alice", "a@b", "H", true⟩], [], []⟩
        ⟨true, true, "b1", 1, 100, false, true⟩ 7 "QUJD" none =
      (.error .internal,
        { (⟨[⟨7, "alice", "a@b", "H", true⟩], [], []⟩ : AppState) with
            blobs := [] ++ [⟨blobName 7 "b1", [65, 66, 67]⟩] }) :=
  C8_commit_failure_keeps_blob ⟨[⟨7, "alice", "a@b", "H", true⟩], [], []⟩
    ⟨true, true, "b1", 1, 100, false, true⟩ 7 "QUJD" [65, 66, 67] none rfl rfl rfl
    (by decide) rfl

/-! ## C10: a well-signed token with a malformed uuid string -/

/-- C10: a validly signed, unexpired token whose `user_id` claim is the
non-empty non-UUID string `"not-a-uuid"` passes `verify_token`, but
`TokenData.get_uuid` then raises `ValueError`, so the image-save handler
fails with an unhandled internal error rather than rejecting the request
as Unauthorized. -/
theorem C10_malformed_uuid_claim_internal_error :
    verify_token "s3cret" "HS256" 0
        (jwtEncode "s3cret" "HS256" ⟨"a@b.com", some "not-a-uuid", some 1800⟩) =
      .ok ⟨some "not-a-uuid"⟩ ∧
    TokenData.get_uuid ⟨some "not-a-uuid"⟩ = .error .valueError ∧
    (save_generated_image ⟨[], [], []⟩ ⟨true, true, "b1", 1, 100, false, false⟩
        ⟨some "not-a-uuid"⟩ "QUJD" none).1 = .error .unhandledValueError ∧
    (save_generated_image ⟨[], [], []⟩ ⟨true, true, "b1", 1, 100, false, false⟩
        ⟨some "not-a-uuid"⟩ "QUJD" none).1 ≠ .error .unauthorized := by
  refine ⟨by decide, by decide, by decide, by decide⟩

/-! ## C2: atomicity contract of save_user_image -/

/-- C2: assuming every existing row points at a stored blob,
`save_user_image` either fully succeeds — the new row is appended, its
`file_path` is the derived blob path, that blob is in storage, and it is
the unique row with that path — or fails leaving the images table
unchanged; in every outcome each row of the resulting table points at a
blob present in the resulting storage, so a row is only created after
its upload succeeded. -/
theorem C2_save_image_atomic (st : AppState) (env : SaveEnv) (uid : Nat)
    (s : String) (prompt : Option String)
    (hinv : ∀ r ∈ st.images, ∃ b ∈ st.blobs, b.path = r.file_path) :
    (∀ img st', save_user_image st env uid s prompt = (.ok img, st') →
        img.file_path = blobName uid env.freshBlobId ∧
        st'.images = st.images ++ [img] ∧
        (∃ b ∈ st'.blobs, b.path = img.file_path) ∧
        (st'.images.filter (fun r => r.file_path == img.file_path)).length = 1) ∧
    (∀ e st', save_user_image st env uid s prompt = (.error e, st') →
        st'.images = st.images) ∧
    (∀ r ∈ (save_user_image st env uid s prompt).2.images,
        ∃ b ∈ (save_user_image st env uid s prompt).2.blobs, b.path = r.file_path) := by
  unfold save_user_image
  cases hg : env.gcsConfigured with
  | false =>
    refine ⟨by simp, by simp, by simpa using hinv⟩
  | true =>
    cases hp : env.projectSet with
    | false =>
      refine ⟨by simp [hg], by simp [hg], by simpa [hg] using hinv⟩
    | true =>
      cases hd : b64decode s with
      | none =>
        refine ⟨by simp [hg, hp], by simp [hg, hp], by simpa [hg, hp] using hinv⟩
      | some bytes =>
        cases hu : env.uploadFault with
        | true =>
          refine ⟨by simp [hg, hp, hu], by simp [hg, hp, hu],
            by simpa [hg, hp, hu] using hinv⟩
        | false =>
          cases hc : dbImageCommitFails st uid (blobName uid env.freshBlobId)
              env.commitFault with
          | true =>
            refine ⟨by simp [hg, hp, hu, hc], ?_, ?_⟩
            · intro e st' h
              simp at h
              rw [← h.2]
            · intro r hr
              simp only [Bool.not_true, Bool.not_false, Bool.false_eq_true,
                if_false] at hr ⊢
              obtain ⟨b, hb, hbp⟩ := hinv r hr
              exact ⟨b, List.mem_append_left _ hb, hbp⟩
          | false =>
            have hany : st.images.any
                (fun r => r.file_path == blobName uid env.freshBlobId) = false := by
              unfold dbImageCommitFails at hc
              rcases Bool.or_eq_false_iff.mp hc with ⟨hc1, -⟩
              exact (Bool.or_eq_false_iff.mp hc1).2
            have hfilter : st.images.filter
                (fun r => r.file_path == blobName uid env.freshBlobId) = [] :=
              filter_nil_of_any_false _ _ hany
            refine ⟨?_, by simp [hg, hp, hu, hc], ?_⟩
            · intro img st' h
              simp at h
              obtain ⟨himg, hst⟩ := h
              subst himg
              subst hst
              refine ⟨rfl, rfl, ?_, ?_⟩
              · exact ⟨⟨blobName uid env.freshBlobId, bytes⟩,
                  List.mem_append_right _ (List.mem_singleton.mpr rfl), rfl⟩
              · simp [List.filter_append, hfilter]
            · intro r hr
              simp only [Bool.not_true, Bool.not_false, Bool.false_eq_true,
                if_false] at hr ⊢
              rcases List.mem_append.mp hr with hr1 | hr2
              · obtain ⟨b, hb, hbp⟩ := hinv r hr1
                exact ⟨b, List.mem_append_left _ hb, hbp⟩
              · refine ⟨⟨blobName uid env.freshBlobId, bytes⟩,
                  List.mem_append_right _ (List.mem_singleton.mpr rfl), ?_⟩
                rw [List.mem_singleton.mp hr2]

/-- Witness for C2: a concrete successful save appends the row, stores
the blob, and the row is unique for its path. -/
theorem C2_save_image_atomic_witness :
    (⟨1, blobName 7 "b1", none, 100, 7⟩ : ImageRec).file_path =
      blobName 7 "b1" ∧
    (⟨[⟨7, "alice", "a@b", "H", true⟩], [⟨1, blobName 7 "b1", none, 100, 7⟩],
        [⟨blobName 7 "b1", [65, 66, 67]⟩]⟩ : AppState).images =
      (⟨[⟨7, "alice", "a@b", "H", true⟩], [], []⟩ : AppState).images
        ++ [⟨1, blobName 7 "b1", none, 100, 7⟩] ∧
    (∃ b ∈ (⟨[⟨7, "alice", "a@b", "H", true⟩],
        [⟨1, blobName 7 "b1", none, 100, 7⟩],
        [⟨blobName 7 "b1", [65, 66, 67]⟩]⟩ : AppState).blobs,
      b.path = (⟨1, blobName 7 "b1", none, 100, 7⟩ : ImageRec).file_path) ∧
    ((⟨[⟨7, "alice", "a@b", "H", true⟩], [⟨1, blobName 7 "b1", none, 100, 7⟩],
        [⟨blobName 7 "b1", [65, 66, 67]⟩]⟩ : AppState).images.filter
      (fun r => r.file_path ==
        (⟨1, blobName 7 "b1", none, 100, 7⟩ : ImageRec).file_path)).length = 1 :=
  (C2_save_image_atomic ⟨[⟨7, "alice", "a@b", "H", true⟩], [], []⟩
      ⟨true, true, "b1", 1, 100, false, false⟩ 7 "QUJD" none (by simp)).1
    ⟨1, blobName 7 "b1", none, 100, 7⟩
    ⟨[⟨7, "alice", "a@b", "H", true⟩], [⟨1, blobName 7 "b1", none, 100, 7⟩],
      [⟨blobName 7 "b1", [65, 66, 67]⟩]⟩ (by decide)

/-! ## C3: registration conflict handling -/

/-- If no element of a list satisfies a disjunction of two boolean
predicates, none satisfies the left one. -/
lemma any_or_false_left {α : Type} (p q : α → Bool) (l : List α)
    (h : l.any (fun a => p a || q a) = false) : l.any p = false := by
  induction l with
  | nil => rfl
  | cons x xs ih =>
    simp only [List.any_cons, Bool.or_eq_false_iff] at h ⊢
    exact ⟨h.1.1, ih h.2⟩

/-- C3: registering a username or email that already exists fails with
`Conflict` and rolls back (the table is unchanged); any other
persistence failure yields `Internal`, likewise rolled back; a first
registration of a clean username succeeds, and a second registration of
the same username then fails with `Conflict` leaving exactly one row
with that username. -/
theorem C3_register_conflict_rollback (hashpw : String → String)
    (users : List UserRec) (req_username req_email req_password : String)
    (id1 id2 : Nat) (fault : Bool)
    (hclean : users.any
      (fun u => u.username == req_username || u.email == req_email) = false) :
    (∀ users2, users2.any
        (fun u => u.username == req_username || u.email == req_email) = true →
      register_user hashpw users2 req_username req_email req_password id2 fault =
        (.error .conflict, users2)) ∧
    (fault = true →
      register_user hashpw users req_username req_email req_password id1 fault =
        (.error .internalError, users)) ∧
    register_user hashpw users req_username req_email req_password id1 false =
      (.ok (), users ++ [(⟨id1, req_username, req_email, hashpw req_password, true⟩ : UserRec)]) ∧
    ((users ++ [(⟨id1, req_username, req_email, hashpw req_password, true⟩ : UserRec)]).filter
      (fun u => u.username == req_username)).length = 1 ∧
    register_user hashpw
        (users ++ [(⟨id1, req_username, req_email, hashpw req_password, true⟩ : UserRec)])
        req_username req_email req_password id2 fault =
      (.error .conflict,
        users ++ [(⟨id1, req_username, req_email, hashpw req_password, true⟩ : UserRec)]) := by
  have husername : users.any (fun u => u.username == req_username) = false :=
    any_or_false_left _ _ _ hclean
  refine ⟨?_, ?_, ?_, ?_, ?_⟩
  · intro users2 h2
    simp [register_user, h2]
  · intro hf
    simp [register_user, hclean, hf]
  · simp [register_user, hclean]
  · rw [List.filter_append, filter_nil_of_any_false _ _ husername]
    simp
  · have hany2 : (users ++ [(⟨id1, req_username, req_email, hashpw req_password, true⟩ : UserRec)]).any
        (fun u => u.username == req_username || u.email == req_email) = true := by
      rw [List.any_append]
      simp
    simp [register_user, hany2]

/-- Witness for C3: registering "bob" twice on an initially clean store:
first attempt succeeds, an injected fault instead yields Internal with
rollback, the second attempt conflicts and exactly one "bob" row
remains. -/
theorem C3_register_conflict_rollback_witness :
    register_user (fun p => "h" ++ p) [] "bob" "b@c.de" "pass1234" 1 true =
      (.error .internalError, []) ∧
    register_user (fun p => "h" ++ p) [] "bob" "b@c.de" "pass1234" 1 false =
      (.ok (), [(⟨1, "bob", "b@c.de", (fun p => "h" ++ p) "pass1234", true⟩ : UserRec)]) ∧
    (([(⟨1, "bob", "b@c.de", (fun p => "h" ++ p) "pass1234", true⟩ : UserRec)]).filter
      (fun u => u.username == "bob")).length = 1 ∧
    register_user (fun p => "h" ++ p)
        [(⟨1, "bob", "b@c.de", (fun p => "h" ++ p) "pass1234", true⟩ : UserRec)]
        "bob" "b@c.de" "pass1234" 2 true =
      (.error .conflict,
        [(⟨1, "bob", "b@c.de", (fun p => "h" ++ p) "pass1234", true⟩ : UserRec)]) := by
  have h := C3_register_conflict_rollback (fun p => "h" ++ p) [] "bob" "b@c.de"
    "pass1234" 1 2 true rfl
  exact ⟨h.2.1 rfl, h.2.2.1, h.2.2.2.1, h.2.2.2.2⟩

/-! ## C9: individual signed-URL failures degrade only their entry -/

/-- Membership is preserved by ordered insertion. -/
lemma mem_insertByCreatedDesc {x a : ImageRec} : ∀ {l : List ImageRec},
    a ∈ insertByCreatedDesc x l ↔ a = x ∨ a ∈ l := by
  intro l
  induction l with
  | nil => simp [insertByCreatedDesc]
  | cons y ys ih =>
    unfold insertByCreatedDesc
    by_cases h : x.created_at ≤ y.created_at
    · rw [if_pos h]
      simp only [List.mem_cons, ih]
      tauto
    · rw [if_neg h]
      simp only [List.mem_cons]

/-- Sorting by recency does not change which rows are present. -/
lemma mem_sortByCreatedDesc {a : ImageRec} : ∀ {l : List ImageRec},
    a ∈ sortByCreatedDesc l ↔ a ∈ l := by
  intro l
  induction l with
  | nil => simp [sortByCreatedDesc]
  | cons x xs ih =>
    unfold sortByCreatedDesc
    rw [mem_insertByCreatedDesc]
    simp [ih]

/-- C9: with storage configured and the row fetch succeeding, the
listing returns normally; every owned image whose signed-URL generation
succeeds appears in the result, and every returned entry corresponds to
a successful URL generation — so an individual failure (an exception or
the blob-not-found empty marker) omits only its own entry and never
fails the whole listing. -/
theorem C9_url_failure_omits_single_entry (images : List ImageRec) (uid : Nat)
    (gcs : String → GcsUrlResult) :
    get_user_images_with_urls true true false images uid gcs =
      .ok (userImagesWithUrls images uid gcs) ∧
    (∀ img ∈ images, img.user_id = uid → img.file_path ≠ "" →
      ∀ u, gcs img.file_path = .ok u → u ≠ "" →
        (⟨img.id, img.file_path, img.prompt, img.created_at, u⟩ : UserImageEntry) ∈
          userImagesWithUrls images uid gcs) ∧
    (∀ e ∈ userImagesWithUrls images uid gcs,
      gcs e.file_path = .ok e.image_url ∧ e.image_url ≠ "") := by
  refine ⟨rfl, ?_, ?_⟩
  · intro img hmem huser hpath u hgcs hu
    unfold userImagesWithUrls
    apply List.mem_filterMap.mpr
    refine ⟨img, ?_, ?_⟩
    · apply List.mem_filter.mpr
      refine ⟨mem_sortByCreatedDesc.mpr (List.mem_filter.mpr ⟨hmem, ?_⟩), ?_⟩
      · simp [huser]
      · simpa using hpath
    · simp [generate_signed_url_sync, hgcs, hu]
  · intro e he
    unfold userImagesWithUrls at he
    obtain ⟨img, hmem, hf⟩ := List.mem_filterMap.mp he
    unfold generate_signed_url_sync at hf
    cases hg2 : gcs img.file_path with
    | ok url =>
      rw [hg2] at hf
      by_cases hurl : url = ""
      · simp [hurl] at hf
      · simp [hurl] at hf
        subst hf
        exact ⟨hg2, hurl⟩
    | notFound =>
      rw [hg2] at hf
      simp at hf
    | err =>
      rw [hg2] at hf
      simp at hf

/-- Witness for C9: of three owned images, the one whose URL generation
raises is omitted and the other two are still returned. -/
theorem C9_url_failure_omits_single_entry_witness :
    (⟨1, "p1", none, 3, "u_p1"⟩ : UserImageEntry) ∈
      userImagesWithUrls [⟨1, "p1", none, 3, 9⟩, ⟨2, "p2", none, 2, 9⟩,
        ⟨3, "p3", none, 1, 9⟩] 9
        (fun p => if p = "p2" then .err else .ok ("u_" ++ p)) ∧
    (⟨3, "p3", none, 1, "u_p3"⟩ : UserImageEntry) ∈
      userImagesWithUrls [⟨1, "p1", none, 3, 9⟩, ⟨2, "p2", none, 2, 9⟩,
        ⟨3, "p3", none, 1, 9⟩] 9
        (fun p => if p = "p2" then .err else .ok ("u_" ++ p)) := by
  have h := C9_url_failure_omits_single_entry
    [⟨1, "p1", none, 3, 9⟩, ⟨2, "p2", none, 2, 9⟩, ⟨3, "p3", none, 1, 9⟩] 9
    (fun p => if p = "p2" then .err else .ok ("u_" ++ p))
  exact ⟨h.2.1 ⟨1, "p1", none, 3, 9⟩ (by decide) rfl (by decide) "u_p1"
      (by decide) (by decide),
    h.2.1 ⟨3, "p3", none, 1, 9⟩ (by decide) rfl (by decide) "u_p3"
      (by decide) (by decide)⟩

/-! ## C1: user re-resolution before mutating endpoints -/

/-- C1 (amended): only the password-change path re-reads the user by id
from the users table and fails with its `AuthenticationError`
(Unauthorized) when the user no longer exists, leaving the table
unchanged.  The image-save handler performs no such re-read: with a
valid token naming an absent user it still uploads the blob, and then
fails with a generic Internal error when the metadata commit violates
the foreign key — not with NotFound/Unauthorized. -/
theorem C1_user_resolution_only_in_password_change :
    (∀ (verify : String → String → Bool) (hashpw : String → String)
        (users : List UserRec) (tok : TokenData) (pc : PasswordChange)
        (fault : Bool) (uid : Nat),
      TokenData.get_uuid tok = .ok (some uid) →
      get_user_by_id users uid = none →
      change_user_password verify hashpw users tok pc fault =
        (.error .authenticationError, users)) ∧
    (∀ (st : AppState) (env : SaveEnv) (tok : TokenData) (uid : Nat)
        (s : String) (bytes : List Nat) (prompt : Option String),
      TokenData.get_uuid tok = .ok (some uid) →
      tok.user_id ≠ none → tok.user_id ≠ some "" →
      get_user_by_id st.users uid = none →
      env.gcsConfigured = true → env.projectSet = true → env.uploadFault = false →
      b64decode s = some bytes →
      save_generated_image st env tok s prompt =
        (.error .internal,
          { st with blobs := st.blobs ++ [⟨blobName uid env.freshBlobId, bytes⟩] })) := by
  constructor
  · intro verify hashpw users tok pc fault uid hget hnone
    simp [change_user_password, hget, hnone]
  · intro st env tok uid s bytes prompt hget h1 h2 husers hg hp hu hdec
    have hor : ¬(tok.user_id = none ∨ tok.user_id = some "") := by
      rintro (h | h)
      · exact h1 h
      · exact h2 h
    simp [save_generated_image, hor, hget, save_user_image, hg, hp, hdec, hu,
      dbImageCommitFails, husers]

/-- Witness for C1: with an empty users table and a well-formed token
for user 7, the password change fails with `AuthenticationError` and
leaves the table unchanged, while the image save uploads the blob and
fails with Internal. -/
theorem C1_user_resolution_only_in_password_change_witness :
    change_user_password (fun _ _ => true) (fun p => p) []
        ⟨some "00000000000000000000000000000007"⟩ ⟨"a", "b", "b"⟩ false =
      (.error .authenticationError, []) ∧
    save_generated_image ⟨[], [], []⟩ ⟨true, true, "b1", 1, 100, false, false⟩
        ⟨some "00000000000000000000000000000007"⟩ "QUJD" none =
      (.error .internal,
        { (⟨[], [], []⟩ : AppState) with
            blobs := [] ++ [⟨blobName 7 "b1", [65, 66, 67]⟩] }) := by
  constructor
  · exact C1_user_resolution_only_in_password_change.1 (fun _ _ => true)
      (fun p => p) [] ⟨some "00000000000000000000000000000007"⟩ ⟨"a", "b", "b"⟩
      false 7 (by decide) rfl
  · exact C1_user_resolution_only_in_password_change.2 ⟨[], [], []⟩
      ⟨true, true, "b1", 1, 100, false, false⟩
      ⟨some "00000000000000000000000000000007"⟩ 7 "QUJD" [65, 66, 67] none
      (by decide) (by decide) (by decide) rfl rfl rfl rfl (by decide)

/-- Counterexample for C1 as stated: with the users table empty (the
token's user was deleted), the image-save handler does not fail with
NotFound/Unauthorized before mutating — it uploads the blob (a mutation
of storage) and then fails with a generic Internal error. -/
theorem C1_counterexample_save_skips_user_resolution :
    (save_generated_image ⟨[], [], []⟩ ⟨true, true, "b1", 1, 100, false, false⟩
        ⟨some "00000000000000000000000000000007"⟩ "QUJD" none).1 =
      .error .internal ∧
    (save_generated_image ⟨[], [], []⟩ ⟨true, true, "b1", 1, 100, false, false⟩
        ⟨some "00000000000000000000000000000007"⟩ "QUJD" none).1 ≠
      .error .unauthorized ∧
    (save_generated_image ⟨[], [], []⟩ ⟨true, true, "b1", 1, 100, false, false⟩
        ⟨some "00000000000000000000000000000007"⟩ "QUJD" none).2.blobs ≠ [] := by
  refine ⟨by decide, by decide, by decide⟩
